import Mathlib

/-!
# Verification of the Telstra SMS Qt client core logic

Shallow embedding of `src/telstrasmsqt.py` (class `App`): the credential
store (`load_keys` / `save_keys`), the API-request wrrapper (`api_request`,
`check_response`) and the three workflows `choose_bearer`, `get_message`,
`send_message`.

The GUI layer is modelled by its observable effects: status-bar text,
dialog boxes shown (`show_message`), and the label/line-edit contents.
The `requests` transport and the `api` module (not present in the
repository snapshot) are modelled from the spec as an oracle of per-call
outcomes: a successful HTTP response (status code plus the JSON fields the
program consumes), or one of the three classified transport failures.

Python-value conventions used throughout:
* a `requests.Response` is truthy iff its status code is < 400 (`Response.ok`);
* `json.dump` followed by `json.load` is the identity on JSON-representable
  values, so the keys file is modelled at the JSON-value level
  (`FileState.stored j`), with `FileState.missing` / `FileState.malformed`
  for the two exceptional reads `load_keys` catches;
* Python list indexing admits negative indices (`pyIdx`), `str.split()`
  splits on whitespace runs and drops empty tokens (`pySplit`), and `int(s)`
  fails with `ValueError` on non-numeric text (`pyInt`).
-/

/-- A JSON value, the codomain of Python's `json.load`. -/
inductive Json where
  | null
  | bool (b : Bool)
  | num (n : Int)
  | str (s : String)
  | arr (xs : List Json)
  | obj (fields : List (String × Json))

/-- One element of the `keys.json` array: `{key, secret, number?}`
(spec §3, Credential Entry; the program only ever stores string fields). -/
structure CredEntry where
  key : String
  secret : String
  number : Option String
deriving Repr, DecidableEq

/-- Python `dict` lookup on a JSON object's field list (first match). -/
def getField : List (String × Json) → String → Option Json
  | [], _ => none
  | (k, v) :: rest, name => if k = name then some v else getField rest name

/-- Project a JSON value to a string, as the program's field accesses expect. -/
def asStr : Json → Option String
  | .str s => some s
  | _ => none

/-- The JSON object `json.dump` writes for one credential entry: the program
builds `{'key': ..., 'secret': ...}` and later assigns `['number']`, so the
`number` field is present exactly when the entry has one. -/
def encodeEntry (e : CredEntry) : Json :=
  Json.obj ([("key", Json.str e.key), ("secret", Json.str e.secret)] ++
    (match e.number with
     | some n => [("number", Json.str n)]
     | none => []))

/-- The JSON array `json.dump` writes for the whole in-memory `self.keys` list. -/
def encodeEntries (es : List CredEntry) : Json :=
  Json.arr (es.map encodeEntry)

/-- Read one credential entry back from its JSON object (the semantic bridge
from the raw dicts `json.load` returns to the typed model). -/
def decodeEntry : Json → Option CredEntry
  | Json.obj fields => do
      let k ← getField fields "key" >>= asStr
      let s ← getField fields "secret" >>= asStr
      match getField fields "number" with
      | some v => do
          let n ← asStr v
          pure { key := k, secret := s, number := some n }
      | none => pure { key := k, secret := s, number := none }
  | _ => none

/-- Read a list of credential entries from a list of JSON objects. -/
def decodeEntryList : List Json → Option (List CredEntry)
  | [] => some []
  | j :: rest => do
      let e ← decodeEntry j
      let es ← decodeEntryList rest
      pure (e :: es)

/-- Read the whole `keys.json` content back into the typed model. -/
def decodeEntryArray : Json → Option (List CredEntry)
  | Json.arr xs => decodeEntryList xs
  | _ => none

/-- The state of the `keys.json` file as `load_keys` can observe it:
absent (`FileNotFoundError`), present but not valid JSON
(`json.JSONDecodeError`), or present with JSON value `j`. -/
inductive FileState where
  | missing
  | malformed
  | stored (j : Json)

/-- The icon a `show_message` dialog is displayed with (`QMessageBox` icon). -/
inductive Icon where
  | information
  | warning
  | critical
deriving Repr, DecidableEq

/-- A dialog box the program can show via `show_message`, identified by its
call site. -/
inductive Dialog where
  /-- "No existing keys.json file found" (`load_keys`, warning). -/
  | noKeysFile
  /-- "Error parsing keys.json" (`load_keys`, critical). -/
  | badKeysJson
  /-- "Could not write to keys.json file" (`save_keys`, critical). -/
  | saveFailed
  /-- "Invalid key" (`choose_bearer` length validation, critical). -/
  | invalidKey
  /-- "Request timed out" (`api_request`, `requests.exceptions.Timeout`). -/
  | requestTimedOut
  /-- "Network problem" (`api_request`, `requests.exceptions.ConnectionError`). -/
  | networkProblem
  /-- "Error calling ..., report bug" (`api_request`, any other exception). -/
  | unexpectedError
  /-- "No number" (`choose_bearer`, information icon by default). -/
  | noNumber
deriving Repr, DecidableEq

/-- The icon each dialog is shown with in the source. -/
def Dialog.icon : Dialog → Icon
  | .noKeysFile => .warning
  | .badKeysJson => .critical
  | .saveFailed => .critical
  | .invalidKey => .critical
  | .requestTimedOut => .critical
  | .networkProblem => .critical
  | .unexpectedError => .critical
  | .noNumber => .information

/-- `App.load_keys` (lines 56–71): reassigns `self.keys` from the parsed file
on success; on `FileNotFoundError` shows a warning, on `JSONDecodeError`
shows a critical dialog, in both cases leaving `self.keys` at its prior
value (the empty list set in `__init__` just before the only call).
A stored JSON value outside the credential-array shape would be kept raw by
Python; the typed model leaves `prior` unchanged there — that branch is
unreachable for files written by `save_keys` (see `decodeEntryArray_encode`). -/
def load_keys (prior : List CredEntry) : FileState → List CredEntry × Option Dialog
  | .missing => (prior, some Dialog.noKeysFile)
  | .malformed => (prior, some Dialog.badKeysJson)
  | .stored j =>
      match decodeEntryArray j with
      | some es => (es, none)
      | none => (prior, none)

/-- `App.save_keys` (lines 73–80): `json.dump(self.keys, f, indent=4)` writes
the serialized list; the file afterwards parses back to exactly that JSON
value. -/
def save_keys (keys : List CredEntry) : FileState :=
  FileState.stored (encodeEntries keys)

/-- The keys list and dialog produced by `__init__` (lines 47–48):
`self.keys = []` followed by `self.load_keys()`. -/
def initKeys (fs : FileState) : List CredEntry × Option Dialog :=
  load_keys [] fs

/-- An HTTP response as the program consumes it: the status code plus the
JSON body fields it reads (`response.json()`), typed per endpoint. -/
structure Response (β : Type) where
  status_code : Nat
  body : β
deriving Repr, DecidableEq

/-- `requests.Response.__bool__`: a response is truthy iff `status_code < 400`
(`Response.ok`); this is what `if not phone_number:` tests. -/
def Response.truthy (r : Response β) : Bool :=
  r.status_code < 400

/-- Truthiness of the `Option (Response β)` that `api_request` hands back:
`None` is falsy, a response is truthy iff its status code is below 400. -/
def optTruthy : Option (Response β) → Bool
  | none => false
  | some r => r.truthy

/-- Modelled from the spec: one remote call's outcome, as produced by the
`api` module (absent from the snapshot) through the `requests` transport —
an HTTP response, or one of the three exception classes `api_request`
distinguishes (`Timeout`, `ConnectionError`, anything else). -/
inductive CallOutcome (β : Type) where
  | ok (r : Response β)
  | timedOut
  | connectionFailed
  | otherException
deriving Repr, DecidableEq

/-- `App.api_request` (lines 137–157): returns the response on success and
`None` (with a classified dialog) when the wrapped call raised. -/
def api_request : CallOutcome β → Option (Response β) × Option Dialog
  | .ok r => (some r, none)
  | .timedOut => (none, some Dialog.requestTimedOut)
  | .connectionFailed => (none, some Dialog.networkProblem)
  | .otherException => (none, some Dialog.unexpectedError)

/-- The status-bar text `check_response` sets on a status-code mismatch
(line 166–168), with the calling method's name interpolated. -/
def failStatus (caller : String) (code : Nat) : String :=
  "Request method " ++ caller ++ " failed with code " ++ toString code ++
    ", check logs"

/-- `App.check_response` (lines 159–170): `False` on `None`, `True` on the
expected status code, otherwise `False` plus a status-bar message naming the
caller and the observed code. -/
def check_response (caller : String) (r : Option (Response β)) (success : Nat) :
    Bool × Option String :=
  match r with
  | none => (false, none)
  | some resp =>
      if resp.status_code = success then (true, none)
      else (false, some (failStatus caller resp.status_code))

/-- Modelled from the spec: the body field `choose_bearer` reads from a
successful `api.get_bearer` response (`access_token`). -/
structure BearerBody where
  access_token : String
deriving Repr, DecidableEq

/-- Modelled from the spec: the body field read from `api.get_number` /
`api.new_number` responses (`destinationAddress`). -/
structure NumberBody where
  destinationAddress : String
deriving Repr, DecidableEq

/-- Modelled from the spec: the body fields `get_message` reads from an
`api.get_message` poll response; `status` is `"EMPTY"` for the empty marker,
otherwise the message fields are consumed.  `sentTimestamp` is kept as its
ISO string (`datetime.fromisoformat` is modelled as an injective tag). -/
structure PollBody where
  status : String
  senderAddress : String
  message : String
  messageId : String
  sentTimestamp : String
deriving Repr, DecidableEq

/-- Modelled from the spec: `api.send_message` acknowledgment body — no field
of it is ever read, only the 201 status code is checked. -/
structure SendBody where
deriving Repr, DecidableEq

/-- Message direction enum (module `message`, absent from the snapshot;
modelled from the spec §3). -/
inductive MessageType where
  | INCOMING
  | OUTGOING
deriving Repr, DecidableEq

/-- Modelled from the spec: the `Message` record of module `message` (absent
from the snapshot), as constructed at the two call sites — `sender` and
`destination` carry `self.phone_number`-shaped values and so may be `None`;
`msg_id` and `timestamp` are omitted for outgoing messages. -/
structure Message where
  msg_type : MessageType
  sender : Option String
  destination : Option String
  text : String
  msg_id : Option String
  timestamp : Option String
deriving Repr, DecidableEq

/-- The mutable fields of the `App` object the core logic touches, plus the
status-bar text and the two input line edits. -/
structure AppState where
  bearer : Option String
  phone_number : Option String
  received_messages : List Message
  keys : List CredEntry
  status : String
  num_text : String
  msg_text : String
  num_label : String
deriving Repr, DecidableEq

/-- One network call as issued to the `api` module, in order. -/
inductive ApiCall where
  | getBearer (key secret : String)
  | getNumber
  | newNumber
  | sendMsg (destination text : String)
  | pollMessage
deriving Repr, DecidableEq, BEq

/-- The observable result of running one event handler: the new `App` state,
the keys-file state, the network calls issued (in order), the dialogs shown
(in order), every `Message` value constructed, and whether the handler
escaped with an uncaught Python exception. -/
structure Step where
  st : AppState
  fs : FileState
  calls : List ApiCall
  dialogs : List Dialog
  built : List Message
  crashed : Bool

/-- Python list indexing (`xs[i]`): negative indices count from the end;
`none` is an `IndexError`. -/
def pyIdx (len : Nat) (i : Int) : Option Nat :=
  if 0 ≤ i then
    if i < (len : Int) then some i.toNat else none
  else
    let j := (len : Int) + i
    if 0 ≤ j then some j.toNat else none

/-- Python `xs[i]` as a read. -/
def pyGet (xs : List α) (i : Int) : Option α :=
  (pyIdx xs.length i).bind xs.get?

/-- Python `xs[i] = f(xs[i])` (in-place update through a possibly negative
index; unchanged when the index is out of range). -/
def pyModify (xs : List α) (i : Int) (f : α → α) : List α :=
  match pyIdx xs.length i with
  | some n =>
      match xs.get? n with
      | some a => xs.set n (f a)
      | none => xs
  | none => xs

/-- The whitespace characters Python's `str.split()` separates on (the ones
that can occur in the program's inputs). -/
def isWS (c : Char) : Bool :=
  c = ' ' ∨ c = '\t' ∨ c = '\n' ∨ c = '\r'

/-- Worker for `pySplit`: split a character list on whitespace runs,
accumulating the current word in reverse. -/
def splitWSAux : List Char → List Char → List (List Char)
  | [], acc => if acc = [] then [] else [acc.reverse]
  | c :: rest, acc =>
      if isWS c then
        if acc = [] then splitWSAux rest []
        else acc.reverse :: splitWSAux rest []
      else splitWSAux rest (c :: acc)

/-- Python `str.split()` with no argument: split on whitespace runs,
dropping empty tokens. -/
def pySplit (s : String) : List String :=
  (splitWSAux s.toList []).map String.mk

/-- Worker for `pyInt`: fold a nonempty digit run into a number; any
non-digit character fails the whole parse. -/
def parseDigits : List Char → Option Nat → Option Nat
  | [], acc => acc
  | c :: rest, acc =>
      if c.isDigit then
        parseDigits rest (some ((acc.getD 0) * 10 + (c.toNat - 48)))
      else none

/-- Python `int(s)`: an optional sign followed by at least one decimal
digit; `none` models the `ValueError` raised on anything else.  (Python also
strips surrounding whitespace and allows digit-group underscores; neither
occurs in this program's inputs.) -/
def pyInt (s : String) : Option Int :=
  match s.toList with
  | '-' :: rest => (parseDigits rest none).map (fun n => -(n : Int))
  | '+' :: rest => (parseDigits rest none).map (fun n => (n : Int))
  | cs => (parseDigits cs none).map (fun n => (n : Int))

/-- `tok.replace('.', '')`: drop every dot. -/
def stripDots (s : String) : String :=
  String.mk (s.toList.filter (fun c => c ≠ '.'))

/-- The text shown for an entry's number in the key-picker list:
`k.get('number') or '[unknown number]'` — `None` and the empty string both
fall back. -/
def numberDisplay : Option String → String
  | some s => if s = "" then "[unknown number]" else s
  | none => "[unknown number]"

/-- One item of the key-picker list (line 178): `f"{i}. {number} {key}"`
with `i` counting from 1. -/
def comboItem (i : Nat) (k : CredEntry) : String :=
  toString i ++ ". " ++ numberDisplay k.number ++ " " ++ k.key

/-- The key-picker item list (lines 177–181).  The typed model always has
`key` and `secret` present, so the comprehension's filter never drops an
entry. -/
def comboItems (keys : List CredEntry) : List String :=
  (keys.enum).map (fun p => comboItem (p.1 + 1) p.2)

/-- A `Step` that only records an uncaught Python exception escaping the
handler, with the state as already mutated up to the raise point. -/
def crashStep (st : AppState) (fs : FileState) (calls : List ApiCall)
    (dialogs : List Dialog) : Step :=
  { st := st, fs := fs, calls := calls, dialogs := dialogs, built := [],
    crashed := true }

/-- A `Step` that returned normally. -/
def doneStep (st : AppState) (fs : FileState) (calls : List ApiCall)
    (dialogs : List Dialog) (built : List Message) : Step :=
  { st := st, fs := fs, calls := calls, dialogs := dialogs, built := built,
    crashed := false }

/-- Lines 210–219 of `choose_bearer`: `rnum` is the (non-`None`) response the
number was resolved from; set `self.phone_number`, append a fresh entry when
the pair was typed (`key_index == -1`), write the number into the entry at
`key_index`, save, and update the number label. -/
def finishNumber (st : AppState) (key secret : String) (kidx : Int)
    (calls : List ApiCall) (dialogs : List Dialog)
    (rnum : Response NumberBody) : Step :=
  let num := rnum.body.destinationAddress
  let st1 := { st with phone_number := some num }
  let keys1 :=
    if kidx = -1 then st1.keys ++ [{ key := key, secret := secret, number := none }]
    else st1.keys
  let idx : Int := if kidx = -1 then (st1.keys.length : Int) else kidx
  let keys2 := pyModify keys1 idx (fun e => { e with number := some num })
  let st2 := { st1 with keys := keys2, num_label := "Num: " ++ num }
  doneStep st2 (save_keys keys2) calls dialogs []

/-- Lines 198–219 of `choose_bearer`, after the key/secret pair and
`key_index` have been determined: request the bearer, and on a 200 response
resolve the number (falling back to `api.new_number` when the `get_number`
result is falsy) and upsert it into the keys list.  A falsy `new_number`
result makes line 210 (`phone_number.json()`) raise `AttributeError` only
when the result is `None`; a non-`None` falsy response still carries a body. -/
def chooseBearerWithPair (st : AppState) (fs : FileState) (key secret : String)
    (kidx : Int) (p_bearer : CallOutcome BearerBody)
    (p_number : CallOutcome NumberBody) (p_new : CallOutcome NumberBody) :
    Step :=
  let (rb, db) := api_request p_bearer
  let calls0 := [ApiCall.getBearer key secret]
  let dialogs0 := db.toList
  match rb with
  | none => doneStep st fs calls0 dialogs0 []
  | some resp =>
      if resp.status_code ≠ 200 then
        doneStep { st with status := failStatus "choose_bearer" resp.status_code }
          fs calls0 dialogs0 []
      else
        let st1 := { st with bearer := some resp.body.access_token,
                             status := "Success! Token valid for one hour" }
        let (rn, dn) := api_request p_number
        let calls1 := calls0 ++ [ApiCall.getNumber]
        let dialogs1 := dialogs0 ++ dn.toList
        match rn with
        | some rnum =>
            if rnum.status_code < 400 then
              finishNumber st1 key secret kidx calls1 dialogs1 rnum
            else
              let (rw, dw) := api_request p_new
              let calls2 := calls1 ++ [ApiCall.newNumber]
              let dialogs2 := dialogs1 ++ [Dialog.noNumber] ++ dw.toList
              match rw with
              | none => crashStep st1 fs calls2 dialogs2
              | some rnum2 => finishNumber st1 key secret kidx calls2 dialogs2 rnum2
        | none =>
            let (rw, dw) := api_request p_new
            let calls2 := calls1 ++ [ApiCall.newNumber]
            let dialogs2 := dialogs1 ++ [Dialog.noNumber] ++ dw.toList
            match rw with
            | none => crashStep st1 fs calls2 dialogs2
            | some rnum2 => finishNumber st1 key secret kidx calls2 dialogs2 rnum2

/-- `App.choose_bearer` (lines 172–219).  `chosen` / `okPressed` are the
dialog's results; an empty `chosen` or a cancel returns immediately.  Exactly
two whitespace-separated tokens are treated as a freshly typed key/secret
pair and length-validated; anything else is parsed as a 1-based entry index
(`int` of the first token with dots stripped, minus one) — an unparsable
token (`ValueError`) or an out-of-range index (`IndexError`) escapes as an
uncaught exception. -/
def choose_bearer (st : AppState) (fs : FileState) (chosen : String)
    (okPressed : Bool) (p_bearer : CallOutcome BearerBody)
    (p_number : CallOutcome NumberBody) (p_new : CallOutcome NumberBody) :
    Step :=
  if chosen = "" ∨ okPressed = false then
    doneStep st fs [] [] []
  else
    match pySplit chosen with
    | [key, secret] =>
        if key.length ≠ 32 ∨ secret.length ≠ 16 then
          doneStep st fs [] [Dialog.invalidKey] []
        else
          chooseBearerWithPair st fs key secret (-1) p_bearer p_number p_new
    | [] => crashStep st fs [] []
    | tok :: _ =>
        match pyInt (stripDots tok) with
        | none => crashStep st fs [] []
        | some n =>
            let kidx : Int := n - 1
            match pyGet st.keys kidx with
            | none => crashStep st fs [] []
            | some e =>
                chooseBearerWithPair st fs e.key e.secret kidx p_bearer p_number p_new

/-- The `Message` value built for one received SMS (lines 234–241). -/
def mkIncoming (phone : Option String) (b : PollBody) : Message :=
  { msg_type := MessageType.INCOMING, sender := some b.senderAddress,
    destination := phone, text := b.message, msg_id := some b.messageId,
    timestamp := some b.sentTimestamp }

/-- The observable outcome of the `while True` drain loop of `get_message`
run against a finite prefix of the provider's poll outcomes. -/
structure DrainRes where
  msgs : List Message
  calls : List ApiCall
  dialogs : List Dialog
  lastFail : Option String
  terminated : Bool
deriving Repr

/-- The drain loop of `get_message` (lines 226–254), one iteration per
script element: a failed or non-200 poll just loops again (recording the
failure status text), a 200 response with body status `"EMPTY"` breaks, and
any other 200 response appends the received message and loops.  An exhausted
script means the loop is still running: `terminated = false` and the fields
describe everything it did so far — in particular an all-failure script of
any length never terminates the loop. -/
def drain (phone : Option String) : List (CallOutcome PollBody) → DrainRes
  | [] =>
      { msgs := [], calls := [], dialogs := [], lastFail := none,
        terminated := false }
  | o :: rest =>
      let (r, d) := api_request o
      match r with
      | none =>
          let t := drain phone rest
          { t with calls := ApiCall.pollMessage :: t.calls,
                   dialogs := d.toList ++ t.dialogs }
      | some resp =>
          if resp.status_code ≠ 200 then
            let t := drain phone rest
            { t with calls := ApiCall.pollMessage :: t.calls,
                     dialogs := d.toList ++ t.dialogs,
                     lastFail :=
                       some (t.lastFail.getD
                         (failStatus "get_message" resp.status_code)) }
          else if resp.body.status = "EMPTY" then
            { msgs := [], calls := [ApiCall.pollMessage], dialogs := [],
              lastFail := none, terminated := true }
          else
            let m := mkIncoming phone resp.body
            let t := drain phone rest
            { t with msgs := m :: t.msgs,
                     calls := ApiCall.pollMessage :: t.calls,
                     dialogs := d.toList ++ t.dialogs }

/-- `App.get_message` (lines 221–255): with no bearer, set the status and do
nothing else; otherwise run the drain loop, extending
`self.received_messages` in arrival order.  The final status is "Fetched all
messages" on termination; a non-terminated script leaves the last status the
loop set ("Fetching messages..." when none) and the `Step` describes the
still-running loop's actions so far (see `drain.terminated`). -/
def get_message (st : AppState) (fs : FileState)
    (script : List (CallOutcome PollBody)) : Step :=
  match st.bearer with
  | none =>
      doneStep { st with status := "Request bearer first" } fs [] [] []
  | some _ =>
      let t := drain st.phone_number script
      let finalStatus :=
        if t.terminated then "Fetched all messages"
        else t.lastFail.getD "Fetching messages..."
      { st := { st with
                  received_messages := st.received_messages ++ t.msgs,
                  status := finalStatus },
        fs := fs, calls := t.calls, dialogs := t.dialogs, built := t.msgs,
        crashed := false }

/-- `App.send_message` (lines 257–282): with no bearer, set the status and
stop; otherwise build the outgoing `Message` (before any validation), reject
a blank destination, then a blank text, and only then issue the network
call, clearing both inputs on a 201 response.  The transient status
`check_response` may set is immediately overwritten by the failure status on
line 282, so only the final text is recorded. -/
def send_message (st : AppState) (fs : FileState) (o : CallOutcome SendBody) :
    Step :=
  match st.bearer with
  | none =>
      doneStep { st with status := "Request bearer first" } fs [] [] []
  | some _ =>
      let m : Message :=
        { msg_type := MessageType.OUTGOING, sender := st.phone_number,
          destination := some st.num_text, text := st.msg_text,
          msg_id := none, timestamp := none }
      if st.num_text.length = 0 then
        doneStep { st with status := "Number cannot be blank" } fs [] [] [m]
      else if st.msg_text.length = 0 then
        doneStep { st with status := "Message cannot be blank" } fs [] [] [m]
      else
        let (r, d) := api_request o
        let calls := [ApiCall.sendMsg st.num_text st.msg_text]
        let (okr, _) := check_response "send_message" r 201
        if okr then
          doneStep { st with status := "Request to send message successful",
                             num_text := "", msg_text := "" }
            fs calls d.toList [m]
        else
          doneStep { st with status := "Request to send message failed" }
            fs calls d.toList [m]

/-! ## Helper lemmas -/

theorem decodeEntry_encodeEntry (e : CredEntry) :
    decodeEntry (encodeEntry e) = some e := by
  obtain ⟨k, s, n⟩ := e
  cases n <;> rfl

theorem decodeEntryList_encode (es : List CredEntry) :
    decodeEntryList (es.map encodeEntry) = some es := by
  induction es with
  | nil => rfl
  | cons e rest ih =>
      simp [decodeEntryList, decodeEntry_encodeEntry, ih]

theorem decodeEntryArray_encode (es : List CredEntry) :
    decodeEntryArray (encodeEntries es) = some es := by
  simp [decodeEntryArray, encodeEntries, decodeEntryList_encode]

/-! ## C4: credential-store load fails soft -/

/-- C4: Credential Store load never raises past its boundary: a missing file
yields the empty credential list (the prior value from `__init__`) plus the
warning-icon dialog, and a malformed-JSON file yields the empty credential
list plus the critical-icon dialog; `load_keys` is a total function, so
neither case escapes as a fault. -/
theorem load_fails_soft :
    initKeys FileState.missing = ([], some Dialog.noKeysFile) ∧
    Dialog.noKeysFile.icon = Icon.warning ∧
    initKeys FileState.malformed = ([], some Dialog.badKeysJson) ∧
    Dialog.badKeysJson.icon = Icon.critical :=
  ⟨rfl, rfl, rfl, rfl⟩

/-! ## C5: save/load round trip -/

/-- C5: saving any credential list and loading it back yields the same list
(and no warning dialog), whatever list was in memory before the load. -/
theorem save_load_round_trip (entries prior : List CredEntry) :
    load_keys prior (save_keys entries) = (entries, none) := by
  simp [load_keys, save_keys, decodeEntryArray_encode]

/-! ## Concrete states used by witnesses and counterexamples -/

/-- The `App` state right after `__init__` with no keys file present. -/
def st0 : AppState :=
  { bearer := none, phone_number := none, received_messages := [], keys := [],
    status := "Ready", num_text := "", msg_text := "",
    num_label := "Num: N/A (request token)" }

/-! ## C10: operations without a bearer do nothing but set the status -/

/-- C10: with no bearer token obtained, both the poll handler and the send
handler return at once with the status "Request bearer first": no network
call, no dialog, no constructed message, and the state (received messages,
keys, inputs) otherwise unchanged — as is the keys file. -/
theorem no_bearer_no_network (st : AppState) (fs : FileState)
    (script : List (CallOutcome PollBody)) (o : CallOutcome SendBody)
    (hb : st.bearer = none) :
    get_message st fs script =
      doneStep { st with status := "Request bearer first" } fs [] [] [] ∧
    send_message st fs o =
      doneStep { st with status := "Request bearer first" } fs [] [] [] := by
  constructor <;> simp [get_message, send_message, hb]

theorem no_bearer_no_network_witness :
    get_message st0 FileState.missing [] =
      doneStep { st0 with status := "Request bearer first" } FileState.missing
        [] [] [] ∧
    send_message st0 FileState.missing CallOutcome.timedOut =
      doneStep { st0 with status := "Request bearer first" } FileState.missing
        [] [] [] :=
  no_bearer_no_network st0 FileState.missing [] CallOutcome.timedOut rfl

/-! ## C7: blank destination or text rejected before any network call -/

/-- The outgoing `Message` value `send_message` constructs on line 261–266. -/
def outgoingMessage (st : AppState) : Message :=
  { msg_type := MessageType.OUTGOING, sender := st.phone_number,
    destination := some st.num_text, text := st.msg_text,
    msg_id := none, timestamp := none }

theorem length_ne_zero_of_ne_empty (s : String) (h : s ≠ "") :
    s.length ≠ 0 := by
  cases s with
  | mk data =>
    cases data with
    | nil => simp at h
    | cons c cs => simp [String.length]

/-- C7: with a bearer present, a blank destination is rejected with the
status "Number cannot be blank", and (destination nonblank) a blank message
text with "Message cannot be blank"; in both cases no network call is
issued, no dialog shown, and nothing else changes. -/
theorem send_blank_rejected (st : AppState) (fs : FileState)
    (o : CallOutcome SendBody) (b : String) (hb : st.bearer = some b) :
    (st.num_text = "" →
      send_message st fs o =
        doneStep { st with status := "Number cannot be blank" } fs [] []
          [outgoingMessage st]) ∧
    (st.num_text ≠ "" → st.msg_text = "" →
      send_message st fs o =
        doneStep { st with status := "Message cannot be blank" } fs [] []
          [outgoingMessage st]) := by
  constructor
  · intro h
    simp [send_message, hb, h, outgoingMessage]
  · intro h1 h2
    simp [send_message, hb, h2, outgoingMessage,
      length_ne_zero_of_ne_empty st.num_text h1]

/-- A session with a bearer and a blank destination input. -/
def stBlankNum : AppState :=
  { st0 with bearer := some "B", phone_number := some "111",
             num_text := "", msg_text := "hello" }

/-- A session with a bearer, a destination typed, and blank message text. -/
def stBlankMsg : AppState :=
  { st0 with bearer := some "B", phone_number := some "111",
             num_text := "0400222333", msg_text := "" }

theorem send_blank_rejected_witness :
    send_message stBlankNum FileState.missing CallOutcome.timedOut =
      doneStep { stBlankNum with status := "Number cannot be blank" }
        FileState.missing [] [] [outgoingMessage stBlankNum] ∧
    send_message stBlankMsg FileState.missing CallOutcome.timedOut =
      doneStep { stBlankMsg with status := "Message cannot be blank" }
        FileState.missing [] [] [outgoingMessage stBlankMsg] :=
  ⟨(send_blank_rejected stBlankNum FileState.missing CallOutcome.timedOut "B"
      rfl).1 rfl,
   (send_blank_rejected stBlankMsg FileState.missing CallOutcome.timedOut "B"
      rfl).2 (by decide) rfl⟩

/-! ## C2: polling appends M1, M2 in order and stops on the empty marker -/

/-- C2: against a provider whose poll calls answer message `b1`, message
`b2`, then the empty marker (all with status 200), `get_message` appends
exactly the two corresponding `Message` records to the session list, in that
order, issues exactly three poll calls, and finishes with "Fetched all
messages".  `b1` and `b2` are arbitrary — in particular they may be equal,
so a duplicate delivery is appended as two distinct entries. -/
theorem poll_appends_in_order (st : AppState) (fs : FileState) (b : String)
    (hb : st.bearer = some b) (b1 b2 be : PollBody)
    (h1 : b1.status ≠ "EMPTY") (h2 : b2.status ≠ "EMPTY")
    (he : be.status = "EMPTY") :
    let script : List (CallOutcome PollBody) :=
      [CallOutcome.ok ⟨200, b1⟩, CallOutcome.ok ⟨200, b2⟩,
       CallOutcome.ok ⟨200, be⟩]
    (get_message st fs script).st.received_messages =
      st.received_messages ++
        [mkIncoming st.phone_number b1, mkIncoming st.phone_number b2] ∧
    (get_message st fs script).calls =
      [ApiCall.pollMessage, ApiCall.pollMessage, ApiCall.pollMessage] ∧
    (get_message st fs script).st.status = "Fetched all messages" ∧
    (get_message st fs script).dialogs = [] := by
  simp [get_message, hb, drain, api_request, h1, h2, he]

/-- A session holding a bearer and a resolved number, ready to poll. -/
def stPoll : AppState :=
  { st0 with bearer := some "B", phone_number := some "111" }

/-- A non-empty poll body (one received SMS). -/
def bodyM : PollBody :=
  { status := "RECEIVED", senderAddress := "0400111222", message := "hello",
    messageId := "id1", sentTimestamp := "2020-01-01T00:00:00" }

/-- The empty-marker poll body. -/
def bodyE : PollBody :=
  { status := "EMPTY", senderAddress := "", message := "", messageId := "",
    sentTimestamp := "" }

theorem poll_appends_in_order_witness :
    (get_message stPoll FileState.missing
        [CallOutcome.ok ⟨200, bodyM⟩, CallOutcome.ok ⟨200, bodyM⟩,
         CallOutcome.ok ⟨200, bodyE⟩]).st.received_messages =
      [mkIncoming (some "111") bodyM, mkIncoming (some "111") bodyM] ∧
    (get_message stPoll FileState.missing
        [CallOutcome.ok ⟨200, bodyM⟩, CallOutcome.ok ⟨200, bodyM⟩,
         CallOutcome.ok ⟨200, bodyE⟩]).calls =
      [ApiCall.pollMessage, ApiCall.pollMessage, ApiCall.pollMessage] ∧
    (get_message stPoll FileState.missing
        [CallOutcome.ok ⟨200, bodyM⟩, CallOutcome.ok ⟨200, bodyM⟩,
         CallOutcome.ok ⟨200, bodyE⟩]).st.status = "Fetched all messages" ∧
    (get_message stPoll FileState.missing
        [CallOutcome.ok ⟨200, bodyM⟩, CallOutcome.ok ⟨200, bodyM⟩,
         CallOutcome.ok ⟨200, bodyE⟩]).dialogs = [] :=
  poll_appends_in_order stPoll FileState.missing "B" rfl bodyM bodyM bodyE
    (by decide) (by decide) rfl

/-! ## C9: the drain loop terminates only on a 200 "EMPTY" response -/

/-- Whether one poll outcome is the successful empty marker: a transport
success with status code 200 whose body status is `"EMPTY"` — the only
response that breaks the `while True` loop. -/
def isEmptyMarker : CallOutcome PollBody → Bool
  | CallOutcome.ok r => r.status_code == 200 && r.body.status == "EMPTY"
  | _ => false

/-- C9: the drain loop of `get_message` terminates iff some poll outcome in
the script is a 200 response carrying the `"EMPTY"` marker; a script
containing no such outcome (every attempt failing by exception or by a
non-200 status, or delivering more messages) leaves the loop running after
consuming the whole script — one poll call per attempt, retrying without
bound. -/
theorem drain_terminates_iff_empty (phone : Option String)
    (script : List (CallOutcome PollBody)) :
    ((drain phone script).terminated = true ↔
      script.any isEmptyMarker = true) ∧
    (script.any isEmptyMarker = false →
      (drain phone script).calls.length = script.length) := by
  induction script with
  | nil => simp [drain]
  | cons o rest ih =>
    obtain ⟨ih1, ih2⟩ := ih
    cases o with
    | ok r =>
      by_cases h200 : r.status_code = 200
      · by_cases hE : r.body.status = "EMPTY"
        · simp [drain, api_request, isEmptyMarker, h200, hE]
        · constructor
          · simp [drain, api_request, isEmptyMarker, h200, hE, ih1]
          · intro h
            simp only [List.any_cons, Bool.or_eq_false_iff] at h
            simp [drain, api_request, h200, hE, ih2 h.2]
      · constructor
        · simp [drain, api_request, isEmptyMarker, h200, ih1]
        · intro h
          simp only [List.any_cons, Bool.or_eq_false_iff] at h
          simp [drain, api_request, h200, ih2 h.2]
    | timedOut =>
      refine ⟨by simp [drain, api_request, isEmptyMarker, ih1], ?_⟩
      intro h
      simp only [List.any_cons, Bool.or_eq_false_iff] at h
      simp [drain, api_request, ih2 h.2]
    | connectionFailed =>
      refine ⟨by simp [drain, api_request, isEmptyMarker, ih1], ?_⟩
      intro h
      simp only [List.any_cons, Bool.or_eq_false_iff] at h
      simp [drain, api_request, ih2 h.2]
    | otherException =>
      refine ⟨by simp [drain, api_request, isEmptyMarker, ih1], ?_⟩
      intro h
      simp only [List.any_cons, Bool.or_eq_false_iff] at h
      simp [drain, api_request, ih2 h.2]

/-- A script on which every poll attempt fails: an exception, a non-200
response, and a connection error. -/
def scriptFail : List (CallOutcome PollBody) :=
  [CallOutcome.timedOut, CallOutcome.ok ⟨500, bodyM⟩,
   CallOutcome.connectionFailed]

theorem drain_terminates_iff_empty_witness :
    (drain (some "111") scriptFail).terminated = false ∧
    (drain (some "111") scriptFail).calls.length = 3 :=
  ⟨by decide,
   (drain_terminates_iff_empty (some "111") scriptFail).2 (by decide)⟩

/-! ## C6: timeouts return no result and leave the credential list alone -/

/-- C6: a transport timeout on any façade operation makes `api_request`
return `None` plus the Timeout-classified dialog, and the in-memory
credential list and the keys file are unmutated by the failed call: a
timed-out bearer request ends `choose_bearer` with only the timeout dialog
shown and nothing changed; a timed-out number resolution (`get_number` and
the `new_number` fallback both timing out after a 200 bearer response)
leaves the keys and the file untouched (the handler then dies on the
`NoneType` attribute access of line 210, still before any mutation); and
`send_message` / `get_message` never touch the keys or the file whatever
their calls' outcomes. -/
theorem timeout_no_result_keys_unmutated {β : Type} (st : AppState)
    (fs : FileState) (key secret : String) (kidx : Int)
    (rb : Response BearerBody) (h200 : rb.status_code = 200)
    (pn pw : CallOutcome NumberBody)
    (script : List (CallOutcome PollBody)) (o : CallOutcome SendBody) :
    api_request (CallOutcome.timedOut : CallOutcome β) =
      (none, some Dialog.requestTimedOut) ∧
    chooseBearerWithPair st fs key secret kidx CallOutcome.timedOut pn pw =
      doneStep st fs [ApiCall.getBearer key secret]
        [Dialog.requestTimedOut] [] ∧
    chooseBearerWithPair st fs key secret kidx (CallOutcome.ok rb)
        CallOutcome.timedOut CallOutcome.timedOut =
      crashStep
        { st with bearer := some rb.body.access_token,
                  status := "Success! Token valid for one hour" }
        fs [ApiCall.getBearer key secret, ApiCall.getNumber, ApiCall.newNumber]
        [Dialog.requestTimedOut, Dialog.noNumber, Dialog.requestTimedOut] ∧
    (send_message st fs o).st.keys = st.keys ∧
    (send_message st fs o).fs = fs ∧
    (get_message st fs script).st.keys = st.keys ∧
    (get_message st fs script).fs = fs := by
  refine ⟨rfl, ?_, ?_, ?_, ?_, ?_, ?_⟩
  · simp [chooseBearerWithPair, api_request, doneStep]
  · simp [chooseBearerWithPair, api_request, h200, crashStep]
  · cases hb : st.bearer
    all_goals simp only [send_message, hb, doneStep]
    all_goals repeat (first | rfl | split)
  · cases hb : st.bearer
    all_goals simp only [send_message, hb, doneStep]
    all_goals repeat (first | rfl | split)
  · cases hb : st.bearer <;> simp [get_message, hb, doneStep]
  · cases hb : st.bearer <;> simp [get_message, hb, doneStep]

theorem timeout_no_result_keys_unmutated_witness :
    api_request (CallOutcome.timedOut : CallOutcome SendBody) =
      (none, some Dialog.requestTimedOut) ∧
    chooseBearerWithPair st0 FileState.missing "K" "S" (-1)
        CallOutcome.timedOut CallOutcome.timedOut CallOutcome.timedOut =
      doneStep st0 FileState.missing [ApiCall.getBearer "K" "S"]
        [Dialog.requestTimedOut] [] ∧
    chooseBearerWithPair st0 FileState.missing "K" "S" (-1)
        (CallOutcome.ok ⟨200, ⟨"tok"⟩⟩) CallOutcome.timedOut
        CallOutcome.timedOut =
      crashStep
        { st0 with bearer := some "tok",
                   status := "Success! Token valid for one hour" }
        FileState.missing
        [ApiCall.getBearer "K" "S", ApiCall.getNumber, ApiCall.newNumber]
        [Dialog.requestTimedOut, Dialog.noNumber, Dialog.requestTimedOut] ∧
    (send_message st0 FileState.missing CallOutcome.timedOut).st.keys =
      st0.keys ∧
    (send_message st0 FileState.missing CallOutcome.timedOut).fs =
      FileState.missing ∧
    (get_message st0 FileState.missing []).st.keys = st0.keys ∧
    (get_message st0 FileState.missing []).fs = FileState.missing :=
  timeout_no_result_keys_unmutated st0 FileState.missing "K" "S" (-1)
    ⟨200, ⟨"tok"⟩⟩ rfl CallOutcome.timedOut CallOutcome.timedOut []
    CallOutcome.timedOut

/-! ## C3: length validation only covers freshly typed pairs -/

/-- A stored entry whose key has length 1 and secret length 1. -/
def entry1 : CredEntry := { key := "k", secret := "s", number := some "123" }

/-- A session whose store holds just `entry1`. -/
def stK : AppState := { st0 with keys := [entry1] }

/-- C3 counterexample: choosing the stored entry shown as "1. 123 k" in the
key picker — the exact item string `choose_bearer` builds for `entry1` —
issues the `api.get_bearer` network call with the stored key of length 1 and
secret of length 1, with no invalid-key rejection: the length check of line
191 only runs for input that splits into exactly two tokens, i.e. freshly
typed pairs. -/
theorem stored_entry_length_not_validated :
    comboItems [entry1] = ["1. 123 k"] ∧
    entry1.key.length ≠ 32 ∧ entry1.secret.length ≠ 16 ∧
    (choose_bearer stK FileState.missing "1. 123 k" true CallOutcome.timedOut
        CallOutcome.timedOut CallOutcome.timedOut).calls =
      [ApiCall.getBearer "k" "s"] ∧
    (choose_bearer stK FileState.missing "1. 123 k" true CallOutcome.timedOut
        CallOutcome.timedOut CallOutcome.timedOut).dialogs =
      [Dialog.requestTimedOut] :=
  ⟨by decide, by decide, by decide, by decide, by decide⟩

/-- C3 (amended): only a freshly typed key/secret pair — dialog input that
splits into exactly two whitespace-separated tokens — is length-validated:
if its key length is not 32 or its secret length is not 16 it is rejected
with the invalid-key dialog before any network call, the state and the file
unchanged.  A pair taken from a stored Credential Entry is used as stored,
without validation. -/
theorem fresh_pair_length_validated (st : AppState) (fs : FileState)
    (chosen k s : String) (hch : chosen ≠ "")
    (hsplit : pySplit chosen = [k, s])
    (hbad : k.length ≠ 32 ∨ s.length ≠ 16)
    (pb : CallOutcome BearerBody) (pn pw : CallOutcome NumberBody) :
    choose_bearer st fs chosen true pb pn pw =
      doneStep st fs [] [Dialog.invalidKey] [] := by
  have hc : ¬ (chosen = "" ∨ (true = false)) := by simp [hch]
  simp only [choose_bearer, hsplit, if_neg hc]
  rw [if_pos hbad]

theorem fresh_pair_length_validated_witness :
    choose_bearer st0 FileState.missing "abc def" true CallOutcome.timedOut
        CallOutcome.timedOut CallOutcome.timedOut =
      doneStep st0 FileState.missing [] [Dialog.invalidKey] [] :=
  fresh_pair_length_validated st0 FileState.missing "abc def" "abc" "def"
    (by decide) (by decide) (Or.inl (by decide)) CallOutcome.timedOut
    CallOutcome.timedOut CallOutcome.timedOut

/-! ## C8: message sender/destination versus the session number -/

/-- The invariant C8 claims for every constructed `Message`: exactly one of
`sender`/`destination` equals the session's phone number, and that side is
the one matching the direction (`sender` for OUTGOING, `destination` for
INCOMING) — equivalently, the direction side equals the number and the
opposite side does not. -/
def claimedMessageInvariant (phone : Option String) (m : Message) : Bool :=
  match m.msg_type with
  | MessageType.OUTGOING => m.sender == phone && !(m.destination == phone)
  | MessageType.INCOMING => m.destination == phone && !(m.sender == phone)

/-- A session about to send a message to its own phone number. -/
def stSelf : AppState :=
  { st0 with bearer := some "B", phone_number := some "111",
             num_text := "111", msg_text := "hi" }

/-- C8 counterexample: nothing stops the user from typing the session's own
number as the destination; the OUTGOING `Message` the program then
constructs has both `sender` and `destination` equal to the session number,
so "exactly one side equals the phone number" fails for a message the
program built. -/
theorem self_send_breaks_exactly_one_side :
    (send_message stSelf FileState.missing
        (CallOutcome.ok ⟨201, ⟨⟩⟩)).built = [outgoingMessage stSelf] ∧
    (outgoingMessage stSelf).sender = some "111" ∧
    (outgoingMessage stSelf).destination = some "111" ∧
    stSelf.phone_number = some "111" ∧
    claimedMessageInvariant stSelf.phone_number (outgoingMessage stSelf) =
      false :=
  ⟨by decide, by decide, by decide, by decide, by decide⟩

theorem send_message_built (st : AppState) (fs : FileState)
    (o : CallOutcome SendBody) (b : String) (hb : st.bearer = some b) :
    (send_message st fs o).built = [outgoingMessage st] := by
  simp only [send_message, hb, outgoingMessage, doneStep]
  repeat (first | rfl | split)

theorem drain_built_incoming (phone : Option String)
    (script : List (CallOutcome PollBody)) (m : Message)
    (hm : m ∈ (drain phone script).msgs) :
    m.msg_type = MessageType.INCOMING ∧ m.destination = phone := by
  induction script with
  | nil => simp [drain] at hm
  | cons o rest ih =>
    cases o with
    | ok r =>
      by_cases h200 : r.status_code = 200
      · by_cases hE : r.body.status = "EMPTY"
        · simp [drain, api_request, h200, hE] at hm
        · simp [drain, api_request, h200, hE] at hm
          rcases hm with h | h
          · subst h
            exact ⟨rfl, rfl⟩
          · exact ih h
      · simp only [drain, api_request] at hm
        rw [if_pos h200] at hm
        exact ih hm
    | timedOut =>
        simp only [drain, api_request] at hm
        exact ih hm
    | connectionFailed =>
        simp only [drain, api_request] at hm
        exact ih hm
    | otherException =>
        simp only [drain, api_request] at hm
        exact ih hm

/-- C8 (amended): every `Message` the program constructs has its
direction-designated side equal to the session's phone number — `sender`
for the OUTGOING messages `send_message` builds, `destination` for the
INCOMING messages the poll loop builds.  The opposite side is not
constrained: it may also equal the session number (no self-send guard), so
the claimed "exactly one side" strengthening fails. -/
theorem message_direction_side (st : AppState) (fs : FileState)
    (o : CallOutcome SendBody) (script : List (CallOutcome PollBody))
    (m m' : Message)
    (hm : m ∈ (send_message st fs o).built)
    (hm' : m' ∈ (get_message st fs script).built) :
    (m.msg_type = MessageType.OUTGOING ∧ m.sender = st.phone_number) ∧
    (m'.msg_type = MessageType.INCOMING ∧
      m'.destination = st.phone_number) := by
  constructor
  · cases hb : st.bearer with
    | none => simp [send_message, hb, doneStep] at hm
    | some b =>
        rw [send_message_built st fs o b hb] at hm
        simp only [List.mem_singleton] at hm
        subst hm
        exact ⟨rfl, rfl⟩
  · cases hb : st.bearer with
    | none => simp [get_message, hb, doneStep] at hm'
    | some b =>
        have h2 : m' ∈ (drain st.phone_number script).msgs := by
          simpa [get_message, hb] using hm'
        exact drain_built_incoming st.phone_number script m' h2

/-- A session sending to a third-party number while able to receive. -/
def stSend : AppState :=
  { st0 with bearer := some "B", phone_number := some "111",
             num_text := "0400222333", msg_text := "hi" }

theorem message_direction_side_witness :
    ((outgoingMessage stSend).msg_type = MessageType.OUTGOING ∧
      (outgoingMessage stSend).sender = stSend.phone_number) ∧
    ((mkIncoming (some "111") bodyM).msg_type = MessageType.INCOMING ∧
      (mkIncoming (some "111") bodyM).destination = stSend.phone_number) :=
  message_direction_side stSend FileState.missing (CallOutcome.ok ⟨201, ⟨⟩⟩)
    [CallOutcome.ok ⟨200, bodyM⟩, CallOutcome.ok ⟨200, bodyE⟩]
    (outgoingMessage stSend) (mkIncoming (some "111") bodyM)
    (by decide) (by decide)

/-! ## C1: number resolution and credential upsert in choose_bearer -/

/-- The credential-list update the workflow performs once a number is
resolved: append a fresh `{key, secret, number}` entry when the pair was
typed fresh (`key_index == -1`), otherwise write the number into the entry
at the selected index. -/
def upsertNumber (keys : List CredEntry) (kidx : Int)
    (key secret num : String) : List CredEntry :=
  if kidx = -1 then
    keys ++ [{ key := key, secret := secret, number := some num }]
  else
    pyModify keys kidx (fun e => { e with number := some num })

theorem pyIdx_append_last (xs : List α) (a : α) :
    pyIdx (xs ++ [a]).length (xs.length : Int) = some xs.length := by
  have hlt : ((xs.length : Nat) : Int) < (((xs ++ [a]).length : Nat) : Int) := by
    simp
  simp [pyIdx, hlt]

theorem pyModify_append_last (xs : List α) (a : α) (f : α → α) :
    pyModify (xs ++ [a]) (xs.length : Int) f = xs ++ [f a] := by
  have h2 : (xs ++ [a]).get? xs.length = some a := by
    simp [List.get?_eq_getElem?, List.getElem?_concat_length]
  simp only [pyModify, pyIdx_append_last, h2]
  simp [List.set_append]

theorem count_no_newNumber (key secret : String) :
    ([ApiCall.getBearer key secret, ApiCall.getNumber]).count
      ApiCall.newNumber = 0 := by
  rfl

theorem count_one_newNumber (key secret : String) :
    ([ApiCall.getBearer key secret, ApiCall.getNumber,
        ApiCall.newNumber]).count ApiCall.newNumber = 1 := by
  rfl

/-- C1: after a 200 `get_bearer` response, the workflow resolves the number
by calling `get_number` first and invokes `new_number` exactly once iff the
`get_number` result reports no assigned number (a falsy response — status
≥ 400 — the code's reading of the spec's "empty result"); the resolved
number is upserted into the credential list (a fresh entry appended when
the pair was typed fresh, i.e. `kidx = -1`, otherwise the selected entry's
number field updated) and the updated list is saved to the keys file
immediately. -/
theorem choose_bearer_number_resolution (st : AppState) (fs : FileState)
    (key secret : String) (kidx : Int)
    (rb : Response BearerBody) (h200 : rb.status_code = 200)
    (rn rnw : Response NumberBody) :
    (chooseBearerWithPair st fs key secret kidx (CallOutcome.ok rb)
        (CallOutcome.ok rn) (CallOutcome.ok rnw)).calls =
      [ApiCall.getBearer key secret, ApiCall.getNumber] ++
        (if rn.status_code < 400 then [] else [ApiCall.newNumber]) ∧
    (chooseBearerWithPair st fs key secret kidx (CallOutcome.ok rb)
        (CallOutcome.ok rn) (CallOutcome.ok rnw)).calls.count
        ApiCall.newNumber =
      (if rn.status_code < 400 then 0 else 1) ∧
    (chooseBearerWithPair st fs key secret kidx (CallOutcome.ok rb)
        (CallOutcome.ok rn) (CallOutcome.ok rnw)).st.keys =
      upsertNumber st.keys kidx key secret
        ((if rn.status_code < 400 then rn else rnw).body.destinationAddress) ∧
    (chooseBearerWithPair st fs key secret kidx (CallOutcome.ok rb)
        (CallOutcome.ok rn) (CallOutcome.ok rnw)).st.phone_number =
      some
        ((if rn.status_code < 400 then rn else rnw).body.destinationAddress) ∧
    (chooseBearerWithPair st fs key secret kidx (CallOutcome.ok rb)
        (CallOutcome.ok rn) (CallOutcome.ok rnw)).fs =
      save_keys (upsertNumber st.keys kidx key secret
        ((if rn.status_code < 400 then rn else rnw).body.destinationAddress)) ∧
    (chooseBearerWithPair st fs key secret kidx (CallOutcome.ok rb)
        (CallOutcome.ok rn) (CallOutcome.ok rnw)).crashed = false := by
  by_cases hn : rn.status_code < 400 <;> by_cases hk : kidx = -1 <;>
    simp [chooseBearerWithPair, api_request, h200, finishNumber,
      upsertNumber, doneStep, hn, hk, pyModify_append_last,
      count_no_newNumber, count_one_newNumber]

theorem choose_bearer_number_resolution_witness :
    (chooseBearerWithPair st0 FileState.missing "K2" "S2" (-1)
        (CallOutcome.ok ⟨200, ⟨"tok"⟩⟩)
        (CallOutcome.ok ⟨404, ⟨"unused"⟩⟩)
        (CallOutcome.ok ⟨200, ⟨"0400999888"⟩⟩)).calls =
      [ApiCall.getBearer "K2" "S2", ApiCall.getNumber, ApiCall.newNumber] ∧
    (chooseBearerWithPair st0 FileState.missing "K2" "S2" (-1)
        (CallOutcome.ok ⟨200, ⟨"tok"⟩⟩)
        (CallOutcome.ok ⟨404, ⟨"unused"⟩⟩)
        (CallOutcome.ok ⟨200, ⟨"0400999888"⟩⟩)).calls.count
        ApiCall.newNumber = 1 ∧
    (chooseBearerWithPair st0 FileState.missing "K2" "S2" (-1)
        (CallOutcome.ok ⟨200, ⟨"tok"⟩⟩)
        (CallOutcome.ok ⟨404, ⟨"unused"⟩⟩)
        (CallOutcome.ok ⟨200, ⟨"0400999888"⟩⟩)).st.keys =
      [{ key := "K2", secret := "S2", number := some "0400999888" }] ∧
    (chooseBearerWithPair st0 FileState.missing "K2" "S2" (-1)
        (CallOutcome.ok ⟨200, ⟨"tok"⟩⟩)
        (CallOutcome.ok ⟨404, ⟨"unused"⟩⟩)
        (CallOutcome.ok ⟨200, ⟨"0400999888"⟩⟩)).st.phone_number =
      some "0400999888" ∧
    (chooseBearerWithPair st0 FileState.missing "K2" "S2" (-1)
        (CallOutcome.ok ⟨200, ⟨"tok"⟩⟩)
        (CallOutcome.ok ⟨404, ⟨"unused"⟩⟩)
        (CallOutcome.ok ⟨200, ⟨"0400999888"⟩⟩)).fs =
      save_keys
        [{ key := "K2", secret := "S2", number := some "0400999888" }] ∧
    (chooseBearerWithPair st0 FileState.missing "K2" "S2" (-1)
        (CallOutcome.ok ⟨200, ⟨"tok"⟩⟩)
        (CallOutcome.ok ⟨404, ⟨"unused"⟩⟩)
        (CallOutcome.ok ⟨200, ⟨"0400999888"⟩⟩)).crashed = false :=
  choose_bearer_number_resolution st0 FileState.missing "K2" "S2" (-1)
    ⟨200, ⟨"tok"⟩⟩ rfl ⟨404, ⟨"unused"⟩⟩ ⟨200, ⟨"0400999888"⟩⟩
